import Mathlib

/-!
Shallow embedding of the FinMate receipt-parsing and transaction
auto-categorization pipeline.

The definitions below are translated from the repository sources:

* `src/utils/formatter.py` — `extract_amount`, `extract_date`;
* `src/backend/app/services/ai_service.py` — `TRANSACTION_CATEGORIES`,
  `categorize_transaction`, `_simple_categorization`;
* `src/src/expense_tracker.py` — `ExpenseTracker.predict_category` and its
  category list;
* `src/ocr/receipt_parser.py` — `extract_receipt_data`;
* `src/ocr/ocr_engine.py` — `extract_text_from_image`.

Python strings are modelled as `String` / `List Char`, floats produced by
`float(...)` on decimal literals as `ℚ`, `datetime.date` values as a record
of numerals, exceptions as `Except`, and the external OCR / AI collaborators
as explicit oracle arguments.  The two regular expressions of
`formatter.py` and the regexes CPython's `_strptime` builds for the four
date formats are modelled as explicit backtracking matchers with the same
alternation order and greediness as the originals.
-/

set_option autoImplicit false

/-! ### Character helpers -/

/-- Python `\s` character class (ASCII): space, tab, newline, carriage
return, vertical tab, form feed. -/
def isPySpace (c : Char) : Bool :=
  c = ' ' || c = '\t' || c = '\n' || c = '\r' || c = Char.ofNat 11 || c = Char.ofNat 12

/-- Python `\w` word-character class restricted to ASCII:
letters, digits and underscore. -/
def isWordChar (c : Char) : Bool :=
  c.isAlpha || c.isDigit || c = '_'

/-- Numeric value of a decimal digit character. -/
def digitVal (c : Char) : Nat := c.toNat - 48

/-- Value of a list of decimal digit characters, most significant first. -/
def digitsToNat (l : List Char) : Nat :=
  l.foldl (fun n c => 10 * n + digitVal c) 0

/-- First match of a list-valued alternation, in order: models ordered
regex alternation / the first `return` of a Python loop. -/
def firstSome {α β : Type} (f : α → Option β) : List α → Option β
  | [] => none
  | a :: as =>
    match f a with
    | some b => some b
    | none => firstSome f as

/-- `leadsWith l p = true` iff `p` is a leading run of `l`. -/
def leadsWith : List Char → List Char → Bool
  | _, [] => true
  | [], _ :: _ => false
  | a :: as, b :: bs => a == b && leadsWith as bs

/-- Python substring containment `needle in hay` on character lists. -/
def containsL : List Char → List Char → Bool
  | [], needle => needle.isEmpty
  | a :: as, needle => leadsWith (a :: as) needle || containsL as needle

/-- Python `str.lower()` restricted to ASCII letters. -/
def lowerL (l : List Char) : List Char := l.map Char.toLower

/-! ### Amount extraction (`src/utils/formatter.py`, `extract_amount`)

The source regex is
`(?:â‚¹|Rs\.?|INR)?\s?(\d{1,3}(?:,\d{3})*(?:\.\d{1,2})?)`
(the first alternative is the three characters U+00E2 U+201A U+00B9, a
double-encoded rupee sign, exactly as the bytes of the source file read),
scanned with `re.findall`, and the captured group of the last match is fed
through `.replace(',', '')` and `float(...)`; `0.0` when there is no
match. -/

/-- The literal first alternative of the currency-marker group: the three
characters U+00E2, U+201A, U+00B9 as they appear in the source file. -/
def rupeeMoji : List Char := [Char.ofNat 0xE2, Char.ofNat 0x201A, Char.ofNat 0xB9]

/-- The ordered alternatives of `(?:â‚¹|Rs\.?|INR)?`: regex alternation
order, with the greedy `\.?` expanded to try `Rs.` before `Rs`, and the
empty alternative (the group is optional) last. -/
def amountPrefixes : List (List Char) :=
  [rupeeMoji, ['R', 's', '.'], ['R', 's'], ['I', 'N', 'R'], []]

/-- Drop a literal leading run, or fail. -/
def dropLead : List Char → List Char → Option (List Char)
  | [], l => some l
  | _ :: _, [] => none
  | p :: ps, c :: cs => if c = p then dropLead ps cs else none

/-- Greedy `(?:,\d{3})*`: returns the consumed characters and the rest. -/
def commaGroups : List Char → List Char × List Char
  | ',' :: a :: b :: c :: rest =>
    if a.isDigit && b.isDigit && c.isDigit then
      let (gs, r) := commaGroups rest
      (',' :: a :: b :: c :: gs, r)
    else ([], ',' :: a :: b :: c :: rest)
  | l => ([], l)

/-- Greedy `(?:\.\d{1,2})?`: returns the consumed characters and the rest. -/
def fracPart : List Char → List Char × List Char
  | '.' :: a :: b :: rest =>
    if a.isDigit then
      if b.isDigit then (['.', a, b], rest) else (['.', a], b :: rest)
    else ([], '.' :: a :: b :: rest)
  | ['.', a] => if a.isDigit then (['.', a], []) else ([], ['.', a])
  | l => ([], l)

/-- The captured group `\d{1,3}(?:,\d{3})*(?:\.\d{1,2})?` at the head of
the list: greedy in each part (the tail parts being optional, the greedy
first solution is the regex match).  Returns the capture and the rest. -/
def coreMatch : List Char → Option (List Char × List Char)
  | [] => none
  | c1 :: rest1 =>
    if c1.isDigit then
      let (ds, restd) :=
        match rest1 with
        | c2 :: rest2 =>
          if c2.isDigit then
            match rest2 with
            | c3 :: rest3 =>
              if c3.isDigit then ([c1, c2, c3], rest3) else ([c1, c2], rest2)
            | [] => ([c1, c2], [])
          else ([c1], rest1)
        | [] => ([c1], [])
      let (gs, restg) := commaGroups restd
      let (fs, restf) := fracPart restg
      some (ds ++ gs ++ fs, restf)
    else none

/-- `\s?` (greedy, with backtracking) followed by the capture group. -/
def spaceCore (l : List Char) : Option (List Char × List Char) :=
  match l with
  | [] => none
  | c :: rest =>
    if isPySpace c then
      match coreMatch rest with
      | some r => some r
      | none => coreMatch (c :: rest)
    else coreMatch (c :: rest)

/-- Attempt of the whole amount regex at the head of the list: try the
currency-marker alternatives in regex order, backtracking into the next
alternative when the continuation fails. -/
def tryAmountAt (l : List Char) : Option (List Char × List Char) :=
  firstSome
    (fun pre =>
      match dropLead pre l with
      | some rest => spaceCore rest
      | none => none)
    amountPrefixes

/-- `re.findall` scan: attempt a match at every position left to right,
resuming after the end of each match.  Every successful match consumes at
least the one captured digit, so a fuel of the input length suffices. -/
def scanAmounts : Nat → List Char → List (List Char)
  | 0, _ => []
  | _ + 1, [] => []
  | fuel + 1, c :: rest =>
    match tryAmountAt (c :: rest) with
    | some (cap, r) => cap :: scanAmounts fuel r
    | none => scanAmounts fuel rest

/-- All captures of the amount regex over the text, in text order. -/
def findAmounts (s : String) : List (List Char) :=
  scanAmounts s.length s.toList

/-- Integer-part digits of a capture after `.replace(',', '')`. -/
def amountIntPart (l : List Char) : List Char :=
  (l.filter (fun c => !(c == ','))).takeWhile (fun c => !(c == '.'))

/-- Fractional-part digits of a capture after `.replace(',', '')`. -/
def amountFracPart (l : List Char) : List Char :=
  ((l.filter (fun c => !(c == ','))).dropWhile (fun c => !(c == '.'))).drop 1

/-- `float(capture.replace(',', ''))` on the shape the capture group can
produce (digits, comma groups, an optional dot and up to two digits). -/
def parseAmount (l : List Char) : ℚ :=
  (digitsToNat (amountIntPart l) : ℚ) +
    (digitsToNat (amountFracPart l) : ℚ) / ((10 : ℚ) ^ (amountFracPart l).length)

/-- `extract_amount` of `src/utils/formatter.py`: value of the last match,
`0.0` when there is none. -/
def extract_amount (text : String) : ℚ :=
  match (findAmounts text).getLast? with
  | some m => parseAmount m
  | none => 0



/-! ### Date extraction (`src/utils/formatter.py`, `extract_date`)

The source scans with `re.findall over the candidate pattern (two 1-2 digit fields and a 2-4 digit year, separated by a slash or hyphen SEP class, between word boundaries)`
and feeds each candidate to `datetime.strptime` against the format list
`("%d/%m/%Y", "%d-%m-%Y", "%m/%d/%Y", "%d/%m/%y")`, returning the date of
the first candidate/format pair that parses, and `None` when none does.
CPython's `_strptime` compiles each format to a regex with field patterns
`d ↦ 3[01]|[12]\d|0[1-9]|[1-9]`, `m ↦ 1[0-2]|0[1-9]|[1-9]`,
`Y ↦ \d\d\d\d`, `y ↦ \d\d`, takes the first (greedy, backtracking) match,
rejects it when characters remain unconsumed, maps `%y` years `00-68` to
`20yy` and `69-99` to `19yy`, and finally constructs `datetime(...)`,
which raises on an invalid calendar date; the bare `except` treats any
such failure as this format failing. -/

/-- A parsed calendar date (`datetime.date`). -/
structure Date where
  year : Nat
  month : Nat
  day : Nat
deriving DecidableEq, Repr

/-- The `_strptime` day field `3[01]|[12]\d|0[1-9]|[1-9]`: candidate
values with their rest, in alternation order. -/
def altDay (l : List Char) : List (Nat × List Char) :=
  (match l with
   | a :: b :: r =>
     (if a = '3' && (b = '0' || b = '1') then [(30 + digitVal b, r)] else []) ++
       (if (a = '1' || a = '2') && b.isDigit then [(10 * digitVal a + digitVal b, r)] else []) ++
       (if a = '0' && b.isDigit && !(b = '0') then [(digitVal b, r)] else [])
   | _ => []) ++
  (match l with
   | a :: r => if a.isDigit && !(a = '0') then [(digitVal a, r)] else []
   | [] => [])

/-- The `_strptime` month field `1[0-2]|0[1-9]|[1-9]`. -/
def altMonth (l : List Char) : List (Nat × List Char) :=
  (match l with
   | a :: b :: r =>
     (if a = '1' && (b = '0' || b = '1' || b = '2') then [(10 + digitVal b, r)] else []) ++
       (if a = '0' && b.isDigit && !(b = '0') then [(digitVal b, r)] else [])
   | _ => []) ++
  (match l with
   | a :: r => if a.isDigit && !(a = '0') then [(digitVal a, r)] else []
   | [] => [])

/-- The `_strptime` year field `%Y ↦ \d\d\d\d`: exactly four digits. -/
def altYear4 (l : List Char) : List (Nat × List Char) :=
  match l with
  | a :: b :: c :: d :: r =>
    if a.isDigit && b.isDigit && c.isDigit && d.isDigit then
      [(1000 * digitVal a + 100 * digitVal b + 10 * digitVal c + digitVal d, r)]
    else []
  | _ => []

/-- The `_strptime` year field `%y ↦ \d\d` with its century mapping:
years `00-68` become `20yy`, years `69-99` become `19yy`. -/
def altYear2 (l : List Char) : List (Nat × List Char) :=
  match l with
  | a :: b :: r =>
    if a.isDigit && b.isDigit then
      [(if 10 * digitVal a + digitVal b ≤ 68 then 2000 + 10 * digitVal a + digitVal b
        else 1900 + 10 * digitVal a + digitVal b, r)]
    else []
  | _ => []

/-- First (greedy, backtracking) match of `f1 sep f2 sep f3` at the head
of the list: the committed regex match of a three-field format. -/
def regexTriple (f1 f2 f3 : List Char → List (Nat × List Char)) (sep : Char)
    (l : List Char) : Option (Nat × Nat × Nat × List Char) :=
  firstSome
    (fun p1 =>
      match p1.2 with
      | s1 :: r1 =>
        if s1 = sep then
          firstSome
            (fun p2 =>
              match p2.2 with
              | s2 :: r2 =>
                if s2 = sep then
                  firstSome (fun p3 => some (p1.1, p2.1, p3.1, p3.2)) (f3 r2)
                else none
              | [] => none)
            (f2 r1)
        else none
      | [] => none)
    (f1 l)

/-- Proleptic Gregorian leap year, as `datetime` uses. -/
def leapYear (y : Nat) : Bool :=
  y % 4 = 0 && (!(y % 100 = 0) || y % 400 = 0)

/-- Days in a month, as `datetime` uses. -/
def daysInMonth (y m : Nat) : Nat :=
  if m = 2 then (if leapYear y then 29 else 28)
  else if m = 4 || m = 6 || m = 9 || m = 11 then 30
  else 31

/-- `datetime(year, month, day)`: `some` date, or `none` when the
constructor would raise (`MINYEAR = 1`, `MAXYEAR = 9999`). -/
def mkDate (y m d : Nat) : Option Date :=
  if 1 ≤ y && y ≤ 9999 && 1 ≤ m && m ≤ 12 && 1 ≤ d && d ≤ daysInMonth y m then
    some ⟨y, m, d⟩
  else none

/-- `strptime` against a day-first format `%d SEP %m SEP year`: commit to
the first regex match, reject unconverted trailing characters, then build
the date. -/
def strpDayFirst (sep : Char) (yf : List Char → List (Nat × List Char))
    (l : List Char) : Option Date :=
  match regexTriple altDay altMonth yf sep l with
  | some (d, m, y, rest) => if rest.isEmpty then mkDate y m d else none
  | none => none

/-- `strptime` against the month-first format `%m/%d/%Y`. -/
def strpMonthFirst (sep : Char) (l : List Char) : Option Date :=
  match regexTriple altMonth altDay altYear4 sep l with
  | some (m, d, y, rest) => if rest.isEmpty then mkDate y m d else none
  | none => none

/-- The ordered format list
`("%d/%m/%Y", "%d-%m-%Y", "%m/%d/%Y", "%d/%m/%y")`. -/
def dateFormats : List (List Char → Option Date) :=
  [strpDayFirst '/' altYear4, strpDayFirst '-' altYear4,
    strpMonthFirst '/', strpDayFirst '/' altYear2]

/-- The inner loop of `extract_date`: the first format that parses the
candidate wins. -/
def tryFormats (tok : List Char) : Option Date :=
  firstSome (fun f => f tok) dateFormats

/-- `\d{1,2}` with greedy backtracking: two digits, then one. -/
def digits1or2 (l : List Char) : List (List Char × List Char) :=
  (match l with
   | a :: b :: r => if a.isDigit && b.isDigit then [([a, b], r)] else []
   | _ => []) ++
  (match l with
   | a :: r => if a.isDigit then [([a], r)] else []
   | [] => [])

/-- `\d{2,4}` with greedy backtracking: four digits, then three, then two. -/
def digits2to4 (l : List Char) : List (List Char × List Char) :=
  (match l with
   | a :: b :: c :: d :: r =>
     if a.isDigit && b.isDigit && c.isDigit && d.isDigit then [([a, b, c, d], r)] else []
   | _ => []) ++
  (match l with
   | a :: b :: c :: r =>
     if a.isDigit && b.isDigit && c.isDigit then [([a, b, c], r)] else []
   | _ => []) ++
  (match l with
   | a :: b :: r => if a.isDigit && b.isDigit then [([a, b], r)] else []
   | _ => [])

/-- The separator class `[SEP]`. -/
def isSep (c : Char) : Bool := c = '/' || c = '-'

/-- The trailing `\b` of the candidate regex: the previous character is a
digit, so the boundary holds exactly when the rest is empty or starts
with a non-word character. -/
def boundaryEnd (l : List Char) : Bool :=
  match l with
  | [] => true
  | c :: _ => !isWordChar c

/-- Attempt of `\d{1,2}[SEP]\d{1,2}[SEP]\d{2,4}\b` at the head of the list
(the leading `\b` is checked by the scanner), with the regex backtracking
order over the digit-count choices. -/
def tryDateTokenAt (l : List Char) : Option (List Char × List Char) :=
  firstSome
    (fun p1 =>
      match p1.2 with
      | s1 :: r1 =>
        if isSep s1 then
          firstSome
            (fun p2 =>
              match p2.2 with
              | s2 :: r2 =>
                if isSep s2 then
                  firstSome
                    (fun p3 =>
                      if boundaryEnd p3.2 then
                        some (p1.1 ++ s1 :: p2.1 ++ s2 :: p3.1, p3.2)
                      else none)
                    (digits2to4 r2)
                else none
              | [] => none)
            (digits1or2 r1)
        else none
      | [] => none)
    (digits1or2 l)

/-- `re.findall` scan for date candidates.  `prevWord` records whether
the previous character is a word character: the leading `\b` (before a
digit) holds exactly when it is not.  Every match consumes at least one
character, so a fuel of the input length suffices; a matched token ends
in a digit, a word character. -/
def scanDates : Nat → Bool → List Char → List (List Char)
  | 0, _, _ => []
  | _ + 1, _, [] => []
  | fuel + 1, prevWord, c :: rest =>
    if prevWord then scanDates fuel (isWordChar c) rest
    else
      match tryDateTokenAt (c :: rest) with
      | some (tok, r) => tok :: scanDates fuel true r
      | none => scanDates fuel (isWordChar c) rest

/-- All candidate tokens of the date regex over the text, in text order. -/
def findDateTokens (s : String) : List (List Char) :=
  scanDates s.length false s.toList

/-- `extract_date` of `src/utils/formatter.py`: the doubly nested loop
returning at the first candidate/format pair that parses, `None` when the
loops fall through. -/
def extract_date (text : String) : Option Date :=
  firstSome tryFormats (findDateTokens text)


/-! ### Category classification
(`src/backend/app/services/ai_service.py` and `src/src/expense_tracker.py`) -/

/-- The fixed category vocabulary of
`src/backend/app/services/ai_service.py`. -/
def TRANSACTION_CATEGORIES : List String :=
  ["Food & Dining", "Transportation", "Shopping", "Entertainment", "Healthcare",
    "Utilities", "Housing", "Insurance", "Education", "Travel", "Investment",
    "Salary", "Freelance", "Gifts", "Other"]

/-- Keyword lists of `_simple_categorization`, in source order. -/
def simpleFoodWords : List String :=
  ["restaurant", "food", "dining", "cafe", "coffee", "pizza", "burger"]

def simpleTransportWords : List String :=
  ["uber", "lyft", "taxi", "gas", "fuel", "parking", "metro", "bus"]

def simpleShoppingWords : List String :=
  ["amazon", "walmart", "target", "shop", "store", "mall"]

def simpleEntertainmentWords : List String :=
  ["netflix", "spotify", "movie", "game", "concert", "theater"]

def simpleHealthcareWords : List String :=
  ["doctor", "hospital", "pharmacy", "medical", "health"]

def simpleUtilitiesWords : List String :=
  ["electric", "water", "gas", "internet", "phone", "utility"]

def simpleHousingWords : List String :=
  ["rent", "mortgage", "home", "apartment"]

def simpleSalaryWords : List String :=
  ["salary", "payroll", "income", "deposit"]

/-- Python `any(word in description_lower for word in ws)`. -/
def kwAny (d : List Char) (ws : List String) : Bool :=
  ws.any (fun w => containsL d w.toList)

/-- `_simple_categorization` of `ai_service.py`: sequential keyword
membership tests in a fixed order, defaulting to `"Other"`. -/
def simple_categorization (description : String) : String :=
  let d := lowerL description.toList
  if kwAny d simpleFoodWords then "Food & Dining"
  else if kwAny d simpleTransportWords then "Transportation"
  else if kwAny d simpleShoppingWords then "Shopping"
  else if kwAny d simpleEntertainmentWords then "Entertainment"
  else if kwAny d simpleHealthcareWords then "Healthcare"
  else if kwAny d simpleUtilitiesWords then "Utilities"
  else if kwAny d simpleHousingWords then "Housing"
  else if kwAny d simpleSalaryWords then "Salary"
  else "Other"

/-- `categorize_transaction` of `ai_service.py`.  `hasKey` models the
truthiness of `settings.OPENAI_API_KEY`; the external AI call is the
oracle `aiResult` (`Except.error` models the call raising, `Except.ok`
the stripped response text).  The `try`/`except Exception` wrapper makes
the function total: the error branch returns the keyword fallback. -/
def categorize_transaction (hasKey : Bool) (aiResult : Except Unit String)
    (description : String) : String × ℚ :=
  if !hasKey then (simple_categorization description, 0.7)
  else
    match aiResult with
    | Except.ok category =>
      (if category ∈ TRANSACTION_CATEGORIES then category else "Other", 0.9)
    | Except.error _ => (simple_categorization description, 0.5)

namespace ExpenseTracker

/-- `self.categories` of `ExpenseTracker.__init__`. -/
def categories : List String :=
  ["Food & Dining", "Transportation", "Shopping", "Bills & Utilities",
    "Entertainment", "Healthcare", "Education", "Travel", "Insurance",
    "Investment", "Income", "Other"]

def foodDiningKeywords : List String :=
  ["restaurant", "cafe", "coffee", "grocery", "food", "dining", "meal", "pizza", "burger"]

def transportationKeywords : List String :=
  ["gas", "fuel", "uber", "lyft", "taxi", "bus", "train", "parking", "toll"]

def shoppingKeywords : List String :=
  ["amazon", "walmart", "target", "mall", "store", "shop", "clothing", "shoes"]

def billsUtilitiesKeywords : List String :=
  ["electric", "water", "gas", "internet", "phone", "utility", "bill"]

def entertainmentKeywords : List String :=
  ["netflix", "spotify", "movie", "theater", "concert", "game", "entertainment"]

def healthcareKeywords : List String :=
  ["doctor", "pharmacy", "medical", "dental", "health", "medicine"]

def educationKeywords : List String :=
  ["tuition", "book", "course", "education", "school", "university"]

def travelKeywords : List String :=
  ["hotel", "flight", "airline", "vacation", "travel", "trip"]

def insuranceKeywords : List String :=
  ["insurance", "premium", "coverage"]

def investmentKeywords : List String :=
  ["stock", "investment", "portfolio", "fund", "broker"]

def incomeKeywords : List String :=
  ["salary", "deposit", "income", "payment", "refund"]

/-- The `category_keywords` dict of `ExpenseTracker.predict_category`, in
insertion (= iteration) order. -/
def category_keywords : List (String × List String) :=
  [("Food & Dining", foodDiningKeywords),
    ("Transportation", transportationKeywords),
    ("Shopping", shoppingKeywords),
    ("Bills & Utilities", billsUtilitiesKeywords),
    ("Entertainment", entertainmentKeywords),
    ("Healthcare", healthcareKeywords),
    ("Education", educationKeywords),
    ("Travel", travelKeywords),
    ("Insurance", insuranceKeywords),
    ("Investment", investmentKeywords),
    ("Income", incomeKeywords)]

/-- `ExpenseTracker.predict_category`: the first category whose keyword
list matches wins; otherwise the amount-sign / subscription heuristic,
then `"Other"`. -/
def predict_category (description : String) (amount : ℚ) : String :=
  let d := lowerL description.toList
  match firstSome (fun p => if kwAny d p.2 then some p.1 else none) category_keywords with
  | some category => category
  | none =>
    if 0 < amount then "Income"
    else if containsL d "subscription".toList || containsL d "monthly".toList then
      "Bills & Utilities"
    else "Other"

end ExpenseTracker

/-! ### Receipt pipeline (`src/ocr/receipt_parser.py`, `src/ocr/ocr_engine.py`)

`extract_text_from_image` preprocesses the image and calls the external
OCR engine (`pytesseract.image_to_string`); neither it nor
`extract_receipt_data` contains a `try`/`except`, so an exception from
the OCR call propagates.  Images and the two external steps are modelled
as an opaque type with oracle functions; a raising call is an
`Except.error`. -/

/-- The structured record `extract_receipt_data` returns. -/
structure ReceiptRecord where
  vendor : String
  amount : ℚ
  date : Option Date
  category : String
  raw_text : String

/-- Python `str.strip()` on a character list. -/
def stripL (l : List Char) : List Char :=
  ((l.dropWhile isPySpace).reverse.dropWhile isPySpace).reverse

/-- Python `str.strip()`. -/
def stripStr (s : String) : String :=
  String.mk (stripL s.toList)

/-- The line-splitting step of `extract_receipt_data`:
`raw_text.strip().split("\n")`, each line stripped, empty lines dropped. -/
def pipelineLines (raw : String) : List String :=
  (((stripStr raw).splitOn "\n").map stripStr).filter (fun l => !(l == ""))

/-- Modelled from the spec: the module `models/categorizer.py` whose
`predict_category` the pipeline imports is not present under `src/`;
§4.4 of the spec describes the Category Classifier as ordered keyword
rules over the fixed category set with default `"Other"`, the rule set
the repository's keyword classifiers implement. -/
def models_predict_category (text : String) : String :=
  simple_categorization text

/-- `extract_text_from_image` of `src/ocr/ocr_engine.py`: preprocess,
then call through to the external OCR engine.  No exception handling. -/
def extract_text_from_image {Image : Type}
    (preprocess_image : Image → Image) (ocr : Image → Except String String)
    (image : Image) : Except String String :=
  ocr (preprocess_image image)

/-- `extract_receipt_data` of `src/ocr/receipt_parser.py`.  The `match`
makes the absence of a `try`/`except` explicit: an OCR exception
propagates to the caller unchanged. -/
def extract_receipt_data {Image : Type}
    (preprocess_image : Image → Image) (ocr : Image → Except String String)
    (image : Image) : Except String ReceiptRecord :=
  match extract_text_from_image preprocess_image ocr image with
  | Except.error e => Except.error e
  | Except.ok raw_text =>
    Except.ok
      { vendor := (pipelineLines raw_text).headD "Unknown Vendor",
        amount := extract_amount raw_text,
        date := extract_date raw_text,
        category := models_predict_category raw_text,
        raw_text := raw_text }

/-! ### Supporting lemmas -/

/-- Defining equation of `extract_amount` when the match list is nonempty. -/
theorem extract_amount_eq_parse {s : String} {m : List Char}
    (h : (findAmounts s).getLast? = some m) : extract_amount s = parseAmount m := by
  unfold extract_amount
  rw [h]

/-- Defining equation of `extract_amount` when no token matches. -/
theorem extract_amount_eq_zero {s : String}
    (h : (findAmounts s).getLast? = none) : extract_amount s = 0 := by
  unfold extract_amount
  rw [h]

/-- Evaluation of `parseAmount` through its integer and fractional parts. -/
theorem parseAmount_eval {m i f : List Char} {n d k : Nat}
    (hi : amountIntPart m = i) (hf : amountFracPart m = f)
    (hn : digitsToNat i = n) (hd : digitsToNat f = d) (hk : f.length = k) :
    parseAmount m = (n : ℚ) + (d : ℚ) / (10 : ℚ) ^ k := by
  rw [parseAmount, hi, hf, hn, hd, hk]

theorem firstSome_nil {α β : Type} (f : α → Option β) : firstSome f [] = none := rfl

theorem firstSome_cons {α β : Type} (f : α → Option β) (a : α) (as : List α) :
    firstSome f (a :: as) =
      match f a with
      | some b => some b
      | none => firstSome f as := rfl

/-- `firstSome` returns `none` exactly when every element fails. -/
theorem firstSome_eq_none_iff {α β : Type} {f : α → Option β} {l : List α} :
    firstSome f l = none ↔ ∀ a ∈ l, f a = none := by
  induction l with
  | nil => simp [firstSome]
  | cons x xs ih =>
    rw [firstSome_cons]
    cases hx : f x with
    | some b => simp [hx]
    | none => simp [hx, ih]

/-- A successful `firstSome` is the success of the first succeeding
element: everything before it fails. -/
theorem firstSome_eq_some_split {α β : Type} {f : α → Option β} {l : List α} {b : β}
    (h : firstSome f l = some b) :
    ∃ l₁ a l₂, l = l₁ ++ a :: l₂ ∧ (∀ x ∈ l₁, f x = none) ∧ f a = some b := by
  induction l with
  | nil => simp [firstSome] at h
  | cons x xs ih =>
    cases hx : f x with
    | some c =>
      rw [firstSome_cons, hx] at h
      exact ⟨[], x, xs, rfl, by simp, by rw [hx]; exact h⟩
    | none =>
      rw [firstSome_cons, hx] at h
      obtain ⟨l₁, a, l₂, hl, hn, ha⟩ := ih h
      refine ⟨x :: l₁, a, l₂, by rw [hl]; rfl, ?_, ha⟩
      intro y hy
      rcases List.mem_cons.mp hy with hxy | hmem
      · rw [hxy]; exact hx
      · exact hn y hmem

/-- `parseAmount` is a sum of a natural number and a nonnegative
fraction, hence nonnegative on every input. -/
theorem parseAmount_nonneg (m : List Char) : 0 ≤ parseAmount m := by
  unfold parseAmount
  positivity

/-- One matching keyword makes the whole `any` test succeed. -/
theorem kwAny_of_contains {d : List Char} {w : String} {ws : List String}
    (hm : w ∈ ws) (hc : containsL d w.toList = true) : kwAny d ws = true := by
  simp only [kwAny, List.any_eq_true]
  exact ⟨w, hm, hc⟩

/-- A label produced by the keyword-rule scan is one of the rule labels. -/
theorem firstSome_rule_mem {l : List (String × List String)} {d : List Char} {c : String}
    (h : firstSome (fun p => if kwAny d p.2 then some p.1 else none) l = some c) :
    c ∈ l.map Prod.fst := by
  obtain ⟨l₁, a, l₂, hl, -, ha⟩ := firstSome_eq_some_split h
  have haL : a ∈ l := by
    rw [hl]
    exact List.mem_append_right _ (List.mem_cons_self _ _)
  by_cases hk : kwAny d a.2 = true
  · rw [if_pos hk] at ha
    obtain rfl : a.1 = c := Option.some.inj ha
    exact List.mem_map_of_mem Prod.fst haL
  · rw [if_neg hk] at ha
    exact absurd ha (by simp)

/-- `_simple_categorization` only ever returns one of its nine literal
labels, each of which is in the fixed category vocabulary. -/
theorem simple_categorization_mem (desc : String) :
    simple_categorization desc ∈ TRANSACTION_CATEGORIES := by
  simp only [simple_categorization]
  split_ifs <;> decide

/-- `ExpenseTracker.predict_category` only ever returns a member of
`self.categories`. -/
theorem predict_category_mem (desc : String) (amt : ℚ) :
    ExpenseTracker.predict_category desc amt ∈ ExpenseTracker.categories := by
  simp only [ExpenseTracker.predict_category]
  split
  · next c hc =>
    have hkeys : c ∈ ExpenseTracker.category_keywords.map Prod.fst :=
      firstSome_rule_mem hc
    have hsub : ∀ x ∈ ExpenseTracker.category_keywords.map Prod.fst,
        x ∈ ExpenseTracker.categories := by decide
    exact hsub c hkeys
  · split_ifs <;> decide

/-- With a transportation keyword matching, the backend keyword
classifier stops at `"Food & Dining"` or `"Transportation"`. -/
theorem simple_gas_cases (desc : String)
    (htr : kwAny (lowerL desc.toList) simpleTransportWords = true) :
    simple_categorization desc = "Food & Dining" ∨
      simple_categorization desc = "Transportation" := by
  simp only [String.toList] at htr
  simp only [simple_categorization, String.toList]
  by_cases hf : kwAny (lowerL desc.data) simpleFoodWords = true
  · exact Or.inl (by simp [hf])
  · exact Or.inr (by simp [hf, htr])

/-- With a transportation keyword matching, the expense-tracker keyword
classifier stops at `"Food & Dining"` or `"Transportation"`. -/
theorem predict_gas_cases (desc : String) (amt : ℚ)
    (htr : kwAny (lowerL desc.toList) ExpenseTracker.transportationKeywords = true) :
    ExpenseTracker.predict_category desc amt = "Food & Dining" ∨
      ExpenseTracker.predict_category desc amt = "Transportation" := by
  simp only [String.toList] at htr
  simp only [ExpenseTracker.predict_category, ExpenseTracker.category_keywords, firstSome,
    String.toList]
  by_cases hf : kwAny (lowerL desc.data) ExpenseTracker.foodDiningKeywords = true
  · exact Or.inl (by simp [hf])
  · exact Or.inr (by simp [hf, htr])

/-! ### Claim theorems -/

/-- Claim C1.  The claim says the receipt pipeline never propagates an
exception and treats a throwing OCR call as empty text.  The code has no
`try`/`except` anywhere on the path, so an OCR exception propagates out
of `extract_receipt_data` unchanged: evaluating the pipeline at an OCR
oracle that raises yields the error, not a structured record. -/
theorem extract_receipt_data_propagates_ocr_error :
    extract_receipt_data (fun i : Unit => i) (fun _ => Except.error "ocr failure") () =
      Except.error "ocr failure" := rfl

/-- Shared evaluation: on the spec's scenario text the last match of the
amount regex is the final digit `4` of the year token (`2024` is matched
as `202` and then `4`, the integer part being capped at three digits). -/
theorem extract_amount_spec_scenario :
    extract_amount "Total: Rs. 1,234.56 on 15/03/2024" = 4 := by
  rw [extract_amount_eq_parse (m := ['4']) (by decide),
    parseAmount_eval (i := ['4']) (f := []) (n := 4) (d := 0) (k := 0)
      (by decide) (by decide) (by decide) (by decide) (by decide)]
  norm_num

/-- Claim C2, counterexample.  On `"Total: Rs. 1,234.56 on 15/03/2024"`
amount extraction does not return `1234.56`, so the claimed conjunction
fails. -/
theorem c2_scenario_counterexample :
    ¬(extract_amount "Total: Rs. 1,234.56 on 15/03/2024" = 1234.56 ∧
      extract_date "Total: Rs. 1,234.56 on 15/03/2024" = some ⟨2024, 3, 15⟩) := by
  intro h
  have h4 := extract_amount_spec_scenario
  rw [h4] at h
  exact absurd h.1 (by norm_num)

/-- Claim C2, amended.  On `"Total: Rs. 1,234.56 on 15/03/2024"` amount
extraction returns `4.0` (the last occurring match of the amount pattern
is the final digit of the year) and date extraction returns
March 15, 2024. -/
theorem c2_scenario_amended :
    extract_amount "Total: Rs. 1,234.56 on 15/03/2024" = 4 ∧
    extract_date "Total: Rs. 1,234.56 on 15/03/2024" = some ⟨2024, 3, 15⟩ :=
  ⟨extract_amount_spec_scenario, by decide⟩

/-- Claim C3.  `extract_amount` returns the value of the last occurring
match in the text and `0.0` when no token matches; on
`"Item1 $5.00 Item2 $10.00 Total $15.00"` it returns `15.00`. -/
theorem extract_amount_last_match_policy (s : String) :
    (findAmounts s = [] → extract_amount s = 0) ∧
    (∀ ms m, findAmounts s = ms ++ [m] → extract_amount s = parseAmount m) ∧
    extract_amount "Item1 $5.00 Item2 $10.00 Total $15.00" = 15 := by
  refine ⟨?_, ?_, ?_⟩
  · intro h
    exact extract_amount_eq_zero (by rw [h]; rfl)
  · intro ms m h
    exact extract_amount_eq_parse (by rw [h]; exact List.getLast?_concat ms)
  · rw [extract_amount_eq_parse (m := ['1', '5', '.', '0', '0']) (by decide),
      parseAmount_eval (i := ['1', '5']) (f := ['0', '0']) (n := 15) (d := 0) (k := 2)
        (by decide) (by decide) (by decide) (by decide) (by decide)]
    norm_num

/-- Witness for C3 at concrete inputs: `"x5"` has the single match `5`
and `"zz"` has none. -/
theorem extract_amount_last_match_policy_witness :
    extract_amount "x5" = parseAmount ['5'] ∧ extract_amount "zz" = 0 :=
  ⟨(extract_amount_last_match_policy "x5").2.1 [] ['5'] (by decide),
   (extract_amount_last_match_policy "zz").1 (by decide)⟩

/-- Claim C4.  `extract_amount` is a total function (the embedding is a
plain `def`: no exception path exists) whose result is nonnegative on
every input string, `0.0` when no monetary pattern is found. -/
theorem extract_amount_total_nonneg (s : String) : 0 ≤ extract_amount s := by
  unfold extract_amount
  split
  · exact parseAmount_nonneg _
  · exact le_refl 0

/-- Claim C5.  `extract_date` returns `none` exactly when no candidate
token parses under any format; a returned date comes from the first
candidate that parses (all earlier candidates failing every format); and
the day-first format `%d/%m/%Y` is tried before the month-first variant,
so whenever it succeeds on a token its reading is the token's result.
Totality of the embedding models that malformed candidates never raise:
`strptime` failures are the `none` branches of the format parsers. -/
theorem extract_date_first_parse_policy (s : String) :
    (extract_date s = none ↔ ∀ tok ∈ findDateTokens s, tryFormats tok = none) ∧
    (∀ d, extract_date s = some d →
      ∃ pre tok post, findDateTokens s = pre ++ tok :: post ∧
        (∀ t ∈ pre, tryFormats t = none) ∧ tryFormats tok = some d) ∧
    (∀ tok d, strpDayFirst '/' altYear4 tok = some d → tryFormats tok = some d) := by
  refine ⟨?_, ?_, ?_⟩
  · unfold extract_date
    exact firstSome_eq_none_iff
  · intro d h
    unfold extract_date at h
    exact firstSome_eq_some_split h
  · intro tok d h
    simp [tryFormats, dateFormats, firstSome, h]

/-- Witness for C5: on `"31/02/2024 01/02/2024"` the first candidate
fails every format (February 31 does not exist) and the second parses
day-first; the day-first precedence instance on `"15/03/2024"`. -/
theorem extract_date_first_parse_policy_witness :
    tryFormats ("15/03/2024".toList) = some ⟨2024, 3, 15⟩ ∧
    (∃ pre tok post, findDateTokens "31/02/2024 01/02/2024" = pre ++ tok :: post ∧
      (∀ t ∈ pre, tryFormats t = none) ∧ tryFormats tok = some ⟨2024, 2, 1⟩) :=
  ⟨(extract_date_first_parse_policy "x").2.2 ("15/03/2024".toList) ⟨2024, 3, 15⟩ (by decide),
   (extract_date_first_parse_policy "31/02/2024 01/02/2024").2.1 ⟨2024, 2, 1⟩ (by decide)⟩

/-- Claim C6.  Both classifiers only ever return labels from their fixed
category vocabularies, and an AI response outside the vocabulary is
replaced by `"Other"`. -/
theorem classifiers_closed_vocabulary (hasKey : Bool) (ai : Except Unit String)
    (desc : String) (amt : ℚ) :
    (categorize_transaction hasKey ai desc).1 ∈ TRANSACTION_CATEGORIES ∧
    ExpenseTracker.predict_category desc amt ∈ ExpenseTracker.categories ∧
    (∀ lbl, lbl ∉ TRANSACTION_CATEGORIES →
      categorize_transaction true (Except.ok lbl) desc = ("Other", 0.9)) := by
  refine ⟨?_, predict_category_mem desc amt, ?_⟩
  · unfold categorize_transaction
    cases hasKey with
    | false => simpa using simple_categorization_mem desc
    | true =>
      cases ai with
      | error e => simpa using simple_categorization_mem desc
      | ok lbl =>
        by_cases h : lbl ∈ TRANSACTION_CATEGORIES
        · simp [h]
        · have : ("Other" : String) ∈ TRANSACTION_CATEGORIES := by decide
          simp [h, this]
  · intro lbl hlbl
    unfold categorize_transaction
    simp [hlbl]

/-- Witness for C6: the AI oracle answering a label outside the
vocabulary is replaced by `"Other"`. -/
theorem classifiers_closed_vocabulary_witness :
    (categorize_transaction true (Except.ok "Groceries maybe") "x").1 ∈ TRANSACTION_CATEGORIES ∧
    categorize_transaction true (Except.ok "Groceries maybe") "x" = ("Other", 0.9) :=
  ⟨(classifiers_closed_vocabulary true (Except.ok "Groceries maybe") "x" 0).1,
   (classifiers_closed_vocabulary true (Except.ok "Groceries maybe") "x" 0).2.2
     "Groceries maybe" (by decide)⟩

/-- Claim C7.  With no API key the AI branch is never entered and the
result is the rule-based fallback (confidence `0.7`); when the AI call
raises, the exception is absorbed and the rule-based result is returned
(confidence `0.5`).  Both equations hold definitionally: no error
escapes. -/
theorem categorize_transaction_ai_fallback (ai : Except Unit String) (desc : String) :
    categorize_transaction false ai desc = (simple_categorization desc, 0.7) ∧
    categorize_transaction true (Except.error ()) desc = (simple_categorization desc, 0.5) :=
  ⟨rfl, rfl⟩

/-- Claim C8, counterexample.  On `"XYZ123 Unknown Vendor Payment"` the
expense-tracker classifier does not return `"Other"`: the keyword
`"payment"` of its `"Income"` rule matches the description. -/
theorem predict_category_unknown_vendor_counterexample :
    ExpenseTracker.predict_category "XYZ123 Unknown Vendor Payment" 0 = "Income" ∧
    ¬ ExpenseTracker.predict_category "XYZ123 Unknown Vendor Payment" 0 = "Other" := by
  constructor
  · decide
  · decide

/-- Claim C8, amended.  With the AI service disabled the backend
classifier returns `"Other"` on `"XYZ123 Unknown Vendor Payment"` (no
backend keyword rule matches), but the expense-tracker classifier
returns `"Income"` because the keyword `"payment"` of its income rule
matches, whatever the amount. -/
theorem unknown_vendor_categorization (ai : Except Unit String) (amt : ℚ) :
    categorize_transaction false ai "XYZ123 Unknown Vendor Payment" = ("Other", 0.7) ∧
    simple_categorization "XYZ123 Unknown Vendor Payment" = "Other" ∧
    ExpenseTracker.predict_category "XYZ123 Unknown Vendor Payment" amt = "Income" := by
  have hs : simple_categorization "XYZ123 Unknown Vendor Payment" = "Other" := by decide
  refine ⟨?_, hs, ?_⟩
  · show (simple_categorization "XYZ123 Unknown Vendor Payment", (0.7 : ℚ)) = ("Other", 0.7)
    rw [hs]
  · rfl

/-- Claim C9.  The Field Extractor is a pure function of its input text:
identical texts yield identical amount and date results. -/
theorem field_extractor_deterministic (s t : String) (h : s = t) :
    extract_amount s = extract_amount t ∧ extract_date s = extract_date t := by
  rw [h]
  exact ⟨rfl, rfl⟩

/-- Witness for C9 at a concrete text. -/
theorem field_extractor_deterministic_witness :
    extract_amount "Rs. 5" = extract_amount "Rs. 5" ∧
    extract_date "Rs. 5" = extract_date "Rs. 5" :=
  field_extractor_deterministic "Rs. 5" "Rs. 5" rfl

/-- Claim C10, counterexample.  `"Restaurant Gas"` contains `"gas"` but
both keyword classifiers return `"Food & Dining"`, not
`"Transportation"`: the food rule is tested first and also matches. -/
theorem gas_keyword_counterexample :
    containsL (lowerL "Restaurant Gas".toList) ("gas".toList) = true ∧
    ¬ simple_categorization "Restaurant Gas" = "Transportation" ∧
    ¬ ExpenseTracker.predict_category "Restaurant Gas" 0 = "Transportation" := by
  refine ⟨by decide, by decide, by decide⟩

/-- Claim C10, amended.  For every description containing `"gas"`, the
keyword classifiers never return the utilities category (the
transportation rule precedes it and matches); and when no food-rule
keyword also matches, they return `"Transportation"`. -/
theorem gas_never_utilities (desc : String) (amt : ℚ)
    (hgas : containsL (lowerL desc.toList) ("gas".toList) = true) :
    (¬ simple_categorization desc = "Utilities" ∧
     ¬ ExpenseTracker.predict_category desc amt = "Bills & Utilities") ∧
    (kwAny (lowerL desc.toList) simpleFoodWords = false →
      simple_categorization desc = "Transportation") ∧
    (kwAny (lowerL desc.toList) ExpenseTracker.foodDiningKeywords = false →
      ExpenseTracker.predict_category desc amt = "Transportation") := by
  have htr1 : kwAny (lowerL desc.toList) simpleTransportWords = true :=
    kwAny_of_contains (by decide : ("gas" : String) ∈ simpleTransportWords) hgas
  have htr2 : kwAny (lowerL desc.toList) ExpenseTracker.transportationKeywords = true :=
    kwAny_of_contains (by decide : ("gas" : String) ∈ ExpenseTracker.transportationKeywords) hgas
  refine ⟨⟨?_, ?_⟩, ?_, ?_⟩
  · rcases simple_gas_cases desc htr1 with h | h <;> rw [h] <;> decide
  · rcases predict_gas_cases desc amt htr2 with h | h <;> rw [h] <;> decide
  · intro hf
    simp only [String.toList] at htr1 hf
    simp only [simple_categorization, String.toList]
    simp [hf, htr1]
  · intro hf
    simp only [String.toList] at htr2 hf
    simp only [ExpenseTracker.predict_category, ExpenseTracker.category_keywords, firstSome,
      String.toList]
    simp [hf, htr2]

/-- Witness for C10 at `"gas station"`: no food keyword matches, so both
classifiers return `"Transportation"`, and neither returns a utilities
label. -/
theorem gas_never_utilities_witness :
    simple_categorization "gas station" = "Transportation" ∧
    ExpenseTracker.predict_category "gas station" 0 = "Transportation" ∧
    ¬ simple_categorization "gas station" = "Utilities" := by
  have h := gas_never_utilities "gas station" 0 (by decide)
  exact ⟨h.2.1 (by decide), h.2.2 (by decide), h.1.1⟩
